import Mathlib

/-!
Shallow embedding of `tf2::BufferCore` (src/tf2/src/buffer_core.cpp).

Times are modelled as natural numbers (nanoseconds); the value `0` is the
"latest" sentinel `ros::Time()`.  Durations obtained by subtracting two
times are signed, so time differences are computed in `Int`.  The opaque
rigid-transform algebra (Bullet's `btTransform`) is modelled as an
arbitrary group `G`; the seven scalars of a wire transform are modelled by
their NaN-ness only, which is the only property `BufferCore` inspects.
The legacy `tf::Transformer` member `old_tf_` is external to the
repository and is not modelled; the state below is the new
implementation's state (frame registry, per-frame time caches, authority
map).
-/

namespace Tf2

/-- Classification of a cache answer, mirroring `enum ExtrapolationMode`. -/
inductive ExtrapolationMode where
  | ONE_VALUE
  | INTERPOLATED
  | EXTRAPOLATE_BACK
  | EXTRAPOLATE_FORWARD
  | EXACT
  deriving DecidableEq, Repr

/-- Error codes of `tf2_msgs::TF2Error` used by `BufferCore`. -/
inductive TF2Error where
  | NO_ERROR
  | LOOKUP_ERROR
  | CONNECTIVITY_ERROR
  deriving DecidableEq, Repr

/-- The three translation scalars of a wire transform, tracked only by
their NaN-ness (`std::isnan` is the only inspection the code performs). -/
structure Vector3 where
  x_isnan : Bool
  y_isnan : Bool
  z_isnan : Bool
  deriving DecidableEq, Repr

/-- The four rotation scalars of a wire transform, tracked by NaN-ness. -/
structure Quaternion where
  x_isnan : Bool
  y_isnan : Bool
  z_isnan : Bool
  w_isnan : Bool
  deriving DecidableEq, Repr

/-- A `geometry_msgs::Transform`: seven scalars (NaN flags) plus the
opaque rigid-transform value they denote, drawn from a group `G`. -/
structure MsgTransform (G : Type) where
  translation : Vector3
  rotation : Quaternion
  val : G
  deriving DecidableEq, Repr

/-- A `geometry_msgs::TransformStamped` as consumed by `setTransform`. -/
structure TransformStamped (G : Type) where
  stamp : Nat
  frame_id : String
  child_frame_id : String
  transform : MsgTransform G
  deriving DecidableEq, Repr

/-- `tf2::TransformStorage`: the record kept in a `TimeCache` and returned
by `getData` (which also fills in `mode_`). -/
structure TransformStorage (G : Type) where
  stamp : Nat
  frame_id : String
  child_frame_id : String
  frame_id_num : Nat
  trans : G
  mode : ExtrapolationMode
  deriving DecidableEq, Repr

/-- Modelled from the spec: `tf2::TimeCache` (tf2/src/time_cache.cpp is
not part of the provided sources).  Samples are kept sorted by timestamp,
newest first. -/
structure TimeCache (G : Type) where
  storage : List (TransformStorage G)
  deriving DecidableEq, Repr

namespace TimeCache

/-- Modelled from the spec: insert into the descending-by-stamp list,
placing the new sample before samples with an older-or-equal stamp. -/
def insertDesc {G : Type} (ts : TransformStorage G) :
    List (TransformStorage G) → List (TransformStorage G)
  | [] => [ts]
  | e :: rest =>
    if e.stamp ≤ ts.stamp then ts :: e :: rest
    else e :: insertDesc ts rest

/-- Modelled from the spec: `TimeCache::insertData`.  A sample strictly
older than `newest.t − cache_time` is rejected (TF_OLD_DATA); otherwise it
is inserted preserving time order and samples older than
`newest.t − cache_time` are evicted. -/
def insertData {G : Type} (cache : TimeCache G) (cache_time : Nat)
    (ts : TransformStorage G) : Bool × TimeCache G :=
  match cache.storage with
  | [] => (true, ⟨[ts]⟩)
  | newest :: rest =>
    if ts.stamp < newest.stamp - cache_time then (false, cache)
    else
      let l := insertDesc ts (newest :: rest)
      let newestStamp := (l.headD ts).stamp
      (true, ⟨l.filter (fun e => ¬ e.stamp < newestStamp - cache_time)⟩)

/-- Modelled from the spec: the bracketing step of interpolation.  Given a
descending list and a time strictly inside its span with no exact match,
return the older bracketing sample `s₀`. -/
def findOlder {G : Type} (time : Nat) :
    List (TransformStorage G) → Option (TransformStorage G)
  | [] => none
  | e :: rest => if e.stamp ≤ time then some e else findOlder time rest

/-- Modelled from the spec: `TimeCache::getData` returning one effective
sample with its classification.  `time = 0` is the "latest" sentinel: the
newest sample is returned tagged `EXACT`.  A single-sample cache answers
`ONE_VALUE`.  Otherwise: exact timestamp match gives `EXACT`, a time
beyond the newest (resp. oldest) sample clamps forward (resp. back), and
a time strictly inside is `INTERPOLATED` with the parent taken from the
older bracketing sample (the numeric interpolation of the opaque algebra
is not inspected by `BufferCore`, so `sample_out` carries `s₀`'s value). -/
def getData {G : Type} (cache : TimeCache G) (time : Nat) :
    Option (TransformStorage G) :=
  match cache.storage with
  | [] => none
  | newest :: rest =>
    if time = 0 then some { newest with mode := .EXACT }
    else if rest.isEmpty then some { newest with mode := .ONE_VALUE }
    else
      match (newest :: rest).find? (fun e => e.stamp = time) with
      | some e => some { e with mode := .EXACT }
      | none =>
        if time > newest.stamp then
          some { newest with mode := .EXTRAPOLATE_FORWARD }
        else
          let oldest := (newest :: rest).getLastD newest
          if time < oldest.stamp then
            some { oldest with mode := .EXTRAPOLATE_BACK }
          else
            match findOlder time (newest :: rest) with
            | some s₀ => some { s₀ with stamp := time, mode := .INTERPOLATED }
            | none => none

end TimeCache

/-- `tf2::BufferCore` state: the bidirectional frame registry, the
id-indexed vector of per-frame caches (entry 0 is the `NO_PARENT`
placeholder `NULL`), the authority map, and the configuration constants. -/
structure BufferCoreState (G : Type) where
  frameIDs : List (String × Nat)
  frameIDs_reverse : List String
  frames : List (Option (TimeCache G))
  frame_authority : List (Nat × String)
  cache_time : Nat
  max_extrapolation_distance : Nat
  deriving DecidableEq, Repr

/-- The depth bound of the two-sided walk (`tf2::MAX_GRAPH_DEPTH`,
declared in buffer_core.h; the spec gives the value 1000). -/
def MAX_GRAPH_DEPTH : Nat := 1000

/-- `BufferCore::BufferCore`: id 0 pre-bound to `"NO_PARENT"` with a
`NULL` cache entry so that index equals id. -/
def emptyState (G : Type) (cache_time max_extrapolation : Nat) :
    BufferCoreState G :=
  { frameIDs := [("NO_PARENT", 0)]
    frameIDs_reverse := ["NO_PARENT"]
    frames := [none]
    frame_authority := []
    cache_time := cache_time
    max_extrapolation_distance := max_extrapolation }

/-- `BufferCore::lookupFrameNumber` (the `tf::LookupException` it throws on
a missing name is modelled as `none`). -/
def lookupFrameNumber {G : Type} (st : BufferCoreState G) (s : String) :
    Option Nat :=
  (st.frameIDs.find? (fun p => p.1 = s)).map (fun p => p.2)

/-- `BufferCore::lookupOrInsertFrameNumber`: return the existing id, or
allocate the next dense id together with a fresh empty cache. -/
def lookupOrInsertFrameNumber {G : Type} (st : BufferCoreState G)
    (s : String) : Nat × BufferCoreState G :=
  match lookupFrameNumber st s with
  | some n => (n, st)
  | none =>
    let n := st.frames.length
    (n, { st with
            frames := st.frames ++ [some ⟨[]⟩]
            frameIDs := st.frameIDs ++ [(s, n)]
            frameIDs_reverse := st.frameIDs_reverse ++ [s] })

/-- `BufferCore::getFrame`: `NULL` for id 0, otherwise the cache at the
index. -/
def getFrame {G : Type} (st : BufferCoreState G) (frame_id : Nat) :
    Option (TimeCache G) :=
  if frame_id = 0 then none else (st.frames.getD frame_id none)

/-- Update of the map `frame_authority_` at a key. -/
def setAuthority (l : List (Nat × String)) (k : Nat) (v : String) :
    List (Nat × String) :=
  if l.any (fun p => p.1 = k) then
    l.map (fun p => if p.1 = k then (k, v) else p)
  else l ++ [(k, v)]

/-- The validation block of `BufferCore::setTransform`: self transform,
empty or "/" child id, empty or "/" parent id, or `std::isnan` on any of
the seven scalars sets `error_exists`. -/
def setTransformError {G : Type} (t : TransformStamped G) : Bool :=
  (t.child_frame_id == t.frame_id) ||
  (t.child_frame_id == "/" || t.child_frame_id == "") ||
  (t.frame_id == "/" || t.frame_id == "") ||
  (t.transform.translation.x_isnan || t.transform.translation.y_isnan ||
   t.transform.translation.z_isnan ||
   t.transform.rotation.x_isnan || t.transform.rotation.y_isnan ||
   t.transform.rotation.z_isnan || t.transform.rotation.w_isnan)

/-- `BufferCore::setTransform` (the new implementation; the legacy
`old_tf_` mirror call is external to the repository).  Returns `none` when
the code would dereference the `NULL` cache of frame 0, i.e. when the
child frame name is `"NO_PARENT"`; otherwise `some (returned bool, new
state)`. -/
def setTransform {G : Type} (st : BufferCoreState G)
    (transform_in : TransformStamped G) (authority : String) :
    Option (Bool × BufferCoreState G) :=
  if setTransformError transform_in then some (false, st)
  else
    let r₁ := lookupOrInsertFrameNumber st transform_in.child_frame_id
    let frame_number := r₁.1
    let r₂ := lookupOrInsertFrameNumber r₁.2 transform_in.frame_id
    let parent_num := r₂.1
    let st₂ := r₂.2
    match getFrame st₂ frame_number with
    | none => none
    | some cache =>
      let ins := cache.insertData st₂.cache_time
        { stamp := transform_in.stamp
          frame_id := transform_in.frame_id
          child_frame_id := transform_in.child_frame_id
          frame_id_num := parent_num
          trans := transform_in.transform.val
          mode := .EXACT }
      let st₃ := { st₂ with
                     frames := st₂.frames.set frame_number (some ins.2) }
      if ins.1 then
        some (true, { st₃ with
          frame_authority := setAuthority st₃.frame_authority frame_number authority })
      else
        some (false, st₃)

/-- Outcome of one side of the two-sided walk in `BufferCore::lookupLists`:
the pushed samples and the terminating frame, the depth error, the
`ROS_ASSERT(pointer)` failure on a `NULL` cache, or exhaustion of the
artificial fuel (proved unreachable below). -/
inductive WalkRes (G : Type) where
  | done (acc : List (TransformStorage G)) (last : Nat)
  | errLoop (acc : List (TransformStorage G))
  | panic
  | fuelOut
  deriving DecidableEq, Repr

/-- One side of the walk (the `while (true)` loops of
`BufferCore::lookupLists`).  Each iteration fetches the frame's cache
(`ROS_ASSERT(pointer)` failing is `.panic`), samples it at `time`
(no data terminates the side recording `last`), checks the dead
`frame == 0` break, pushes the sample, moves to the sample's parent id
and applies the `counter++ > MAX_GRAPH_DEPTH` loop check.  Samples are
accumulated reversed and un-reversed on exit to mirror `push_back`. -/
def walkLoop {G : Type} (st : BufferCoreState G) (time : Nat) :
    Nat → Nat → Nat → List (TransformStorage G) → WalkRes G
  | _frame, 0, _counter, _acc => .fuelOut
  | frame, fuel+1, counter, acc =>
    match getFrame st frame with
    | none => .panic
    | some pointer =>
      match pointer.getData time with
      | none => .done acc.reverse frame
      | some temp =>
        if frame = 0 then .done acc.reverse frame
        else
          if counter > MAX_GRAPH_DEPTH then .errLoop (temp :: acc).reverse
          else walkLoop st time temp.frame_id_num fuel (counter+1) (temp :: acc)

/-- Which diagnostic a `LOOKUP_ERROR` from `lookupLists` carries. -/
inductive LLReason where
  | noSource
  | noTarget
  | loop
  | resolveMissing
  deriving DecidableEq, Repr

/-- Result of `BufferCore::lookupLists`: the error code together with the
(partially) filled `TransformLists` out-parameter. -/
inductive LLRes (G : Type) where
  | ok (inv fwd : List (TransformStorage G))
  | errLookup (reason : LLReason) (inv fwd : List (TransformStorage G))
  | errConn
  | panic
  | fuelOut
  deriving DecidableEq, Repr

/-- The shared-suffix pop loop of `lookupLists`, phrased on reversed
(top-of-chain first) lists so that `pop_back` is structural: while the
back samples of both lists resolve to the same child frame id, pop both,
stopping as soon as either list empties.  A failed name resolution is the
`tf::LookupException` caught by the surrounding `try`. -/
def popLoopRev {G : Type} (st : BufferCoreState G) :
    List (TransformStorage G) → List (TransformStorage G) →
    Except Unit (List (TransformStorage G) × List (TransformStorage G))
  | a :: inv, b :: fwd =>
    match lookupFrameNumber st a.child_frame_id,
          lookupFrameNumber st b.child_frame_id with
    | some ca, some cb =>
      if ca = cb then
        if inv.isEmpty || fwd.isEmpty then .ok (inv, fwd)
        else popLoopRev st inv fwd
      else .ok (a :: inv, b :: fwd)
    | _, _ => .error ()
  | inv, fwd => .ok (inv, fwd)

/-- The pop loop on the lists in `push_back` order. -/
def popLoop {G : Type} (st : BufferCoreState G)
    (inv fwd : List (TransformStorage G)) :
    Except Unit (List (TransformStorage G) × List (TransformStorage G)) :=
  (popLoopRev st inv.reverse fwd.reverse).map
    (fun p => (p.1.reverse, p.2.reverse))

/-- The case analysis of `BufferCore::lookupLists` after both walk sides
completed (buffer_core.cpp lines 506-592): the zero-length cases, the
`last_forward != last_inverse` check, the `NO_PARENT`-at-top check (which
resolves the CHILD frame id of the topmost sample on each side), and the
shared-suffix pop loop. -/
def lookupListsPost {G : Type} (st : BufferCoreState G)
    (source_frame target_frame : Nat)
    (inv fwd : List (TransformStorage G)) (lastInv lastFwd : Nat) :
    LLRes G :=
  if inv.isEmpty then
    if fwd.isEmpty then .errConn
    else if lastFwd ≠ source_frame then .errConn
    else .ok inv fwd
  else if fwd.isEmpty then
    match inv.getLast? with
    | none => .errConn
    | some a =>
      match lookupFrameNumber st a.frame_id with
      | none => .errLookup .resolveMissing inv fwd
      | some n => if n ≠ target_frame then .errConn else .ok inv fwd
  else if lastFwd ≠ lastInv then .errConn
  else
    match inv.getLast?, fwd.getLast? with
    | some a, some b =>
      match lookupFrameNumber st a.child_frame_id with
      | none => .errLookup .resolveMissing inv fwd
      | some ca =>
        if ca = 0 then .errConn
        else
          match lookupFrameNumber st b.child_frame_id with
          | none => .errLookup .resolveMissing inv fwd
          | some cb =>
            if cb = 0 then .errConn
            else
              match popLoop st inv fwd with
              | .error _ => .errLookup .resolveMissing inv fwd
              | .ok p => .ok p.1 p.2
    | _, _ => .errConn

/-- `BufferCore::lookupLists`: clear the lists, short-circuit equal
endpoints, check the source frame exists, walk the source side, check the
target frame exists, walk the target side, then post-process. -/
def lookupLists {G : Type} (st : BufferCoreState G) (target_frame : Nat)
    (time : Nat) (source_frame : Nat) : LLRes G :=
  if target_frame = source_frame then .ok [] []
  else
    match getFrame st source_frame with
    | none => .errLookup .noSource [] []
    | some _ =>
      match walkLoop st time source_frame (MAX_GRAPH_DEPTH + 2) 0 [] with
      | .fuelOut => .fuelOut
      | .panic => .panic
      | .errLoop inv => .errLookup .loop inv []
      | .done inv lastInv =>
        match getFrame st target_frame with
        | none => .errLookup .noTarget inv []
        | some _ =>
          match walkLoop st time target_frame (MAX_GRAPH_DEPTH + 2) 0 [] with
          | .fuelOut => .fuelOut
          | .panic => .panic
          | .errLoop fwd => .errLookup .loop inv fwd
          | .done fwd lastFwd =>
            lookupListsPost st source_frame target_frame inv fwd lastInv lastFwd

/-- `BufferCore::test_extrapolation_one_value`: a `ONE_VALUE` sample fails
when the (signed) distance between its stamp and the target time exceeds
`max_extrapolation_distance_` in either direction. -/
def test_extrapolation_one_value {G : Type} (maxE target_time : Nat)
    (tr : TransformStorage G) : Bool :=
  tr.mode == ExtrapolationMode.ONE_VALUE &&
    ((tr.stamp : Int) - (target_time : Int) > (maxE : Int) ||
     (target_time : Int) - (tr.stamp : Int) > (maxE : Int))

/-- `BufferCore::test_extrapolation_past`. -/
def test_extrapolation_past {G : Type} (maxE target_time : Nat)
    (tr : TransformStorage G) : Bool :=
  tr.mode == ExtrapolationMode.EXTRAPOLATE_BACK &&
    (tr.stamp : Int) - (target_time : Int) > (maxE : Int)

/-- `BufferCore::test_extrapolation_future`. -/
def test_extrapolation_future {G : Type} (maxE target_time : Nat)
    (tr : TransformStorage G) : Bool :=
  tr.mode == ExtrapolationMode.EXTRAPOLATE_FORWARD &&
    (target_time : Int) - (tr.stamp : Int) > (maxE : Int)

/-- The three per-sample checks `BufferCore::test_extrapolation` applies
to every element of both lists. -/
def test_extrapolation_sample {G : Type} (maxE target_time : Nat)
    (tr : TransformStorage G) : Bool :=
  test_extrapolation_one_value maxE target_time tr ||
  test_extrapolation_past maxE target_time tr ||
  test_extrapolation_future maxE target_time tr

/-- `BufferCore::test_extrapolation`: scan the inverse list then the
forward list, failing on the first sample any per-sample check rejects. -/
def test_extrapolation {G : Type} (maxE target_time : Nat)
    (inv fwd : List (TransformStorage G)) : Bool :=
  inv.any (test_extrapolation_sample maxE target_time) ||
  fwd.any (test_extrapolation_sample maxE target_time)

/-- `BufferCore::computeTransformFromList`: starting from the identity,
right-multiply by the inverse-list transforms traversed from the back,
then left-multiply by the inverses of the forward-list transforms
traversed from the back. -/
def computeTransformFromList {G : Type} [Group G]
    (inv fwd : List (TransformStorage G)) : G :=
  let t₁ := inv.reverse.foldl (fun acc ts => acc * ts.trans) 1
  fwd.reverse.foldl (fun acc ts => ts.trans⁻¹ * acc) t₁

/-- `ros::TIME_MAX` (4294967295 s, 999999999 ns) in nanoseconds. -/
def TIME_MAX : Nat := 4294967295999999999

/-- Result of `BufferCore::getLatestCommonTime`: the returned error code
and the `time` out-parameter, or a crash propagated from the walk. -/
inductive GLCTResult where
  | result (retval : TF2Error) (time : Nat)
  | panic
  | fuelOut
  deriving DecidableEq, Repr

/-- `BufferCore::getLatestCommonTime`: walk between the resolved frames
at the "latest" sentinel; a `tf::LookupException` from name resolution is
caught yielding `LOOKUP_ERROR` with time `ros::Time()`; a walk error
yields that code with `time.fromSec(0)`; empty lists yield `NO_ERROR`
with the unset time; otherwise fold the minimum stamp starting from
`ros::TIME_MAX` over the inverse then the forward list. -/
def getLatestCommonTime {G : Type} (st : BufferCoreState G)
    (source dest : String) : GLCTResult :=
  match lookupFrameNumber st dest with
  | none => .result .LOOKUP_ERROR 0
  | some dn =>
    match lookupFrameNumber st source with
    | none => .result .LOOKUP_ERROR 0
    | some sn =>
      match lookupLists st dn 0 sn with
      | .panic => .panic
      | .fuelOut => .fuelOut
      | .errLookup _ _ _ => .result .LOOKUP_ERROR 0
      | .errConn => .result .CONNECTIVITY_ERROR 0
      | .ok inv fwd =>
        if inv.isEmpty && fwd.isEmpty then .result .NO_ERROR 0
        else
          .result .NO_ERROR
            (((inv.map (fun e => e.stamp)) ++ (fwd.map (fun e => e.stamp))).foldl
              (fun t s => if t > s then s else t) TIME_MAX)

/-- A returned `geometry_msgs::TransformStamped`: the composed opaque
transform and the stamped header. -/
structure StampedTransform (G : Type) where
  trans : G
  stamp : Nat
  frame_id : String
  child_frame_id : String
  deriving DecidableEq, Repr

/-- Outcome of `BufferCore::lookupTransform`: the returned stamped
transform, or which exception escapes, or a crash. -/
inductive LookupOutcome (G : Type) where
  | ok (out : StampedTransform G)
  | exLookup
  | exConnectivity
  | exExtrapolation
  | panic
  | fuelOut
  deriving DecidableEq, Repr

/-- The `temp_time` / `retval` resolution step of `lookupTransform`: the
"latest" sentinel is replaced by `getLatestCommonTime`, any other time
passes through with `NO_ERROR`. -/
def latestTimeResolution {G : Type} (st : BufferCoreState G)
    (target_frame source_frame : String) (time : Nat) : GLCTResult :=
  if time = 0 then getLatestCommonTime st target_frame source_frame
  else .result .NO_ERROR time

/-- `BufferCore::lookupTransform(target, source, time)`: identity
short-circuit on equal names (stamped with the requested time), latest
time resolution, the two-sided walk (name resolution failures caught as
`LOOKUP_ERROR`), the extrapolation check (reclassified as
`ConnectivityException` when the original time was the sentinel), and
chain composition. -/
def lookupTransform {G : Type} [Group G] (st : BufferCoreState G)
    (target_frame source_frame : String) (time : Nat) : LookupOutcome G :=
  if source_frame == target_frame then
    .ok ⟨1, time, target_frame, source_frame⟩
  else
    match latestTimeResolution st target_frame source_frame time with
    | .panic => .panic
    | .fuelOut => .fuelOut
    | .result .LOOKUP_ERROR _ => .exLookup
    | .result .CONNECTIVITY_ERROR _ => .exConnectivity
    | .result .NO_ERROR temp_time =>
      match lookupFrameNumber st target_frame with
      | none => .exLookup
      | some tn =>
        match lookupFrameNumber st source_frame with
        | none => .exLookup
        | some sn =>
          match lookupLists st tn temp_time sn with
          | .panic => .panic
          | .fuelOut => .fuelOut
          | .errLookup _ _ _ => .exLookup
          | .errConn => .exConnectivity
          | .ok inv fwd =>
            if test_extrapolation st.max_extrapolation_distance temp_time inv fwd then
              if time = 0 then .exConnectivity else .exExtrapolation
            else
              .ok ⟨computeTransformFromList inv fwd, temp_time,
                   target_frame, source_frame⟩

/-- The five-argument `BufferCore::lookupTransform(target, target_time,
source, source_time, fixed_frame)`: compose the fixed←source lookup with
the target←fixed lookup; the output carries `temp2`'s stamp. -/
def lookupTransformFull {G : Type} [Group G] (st : BufferCoreState G)
    (target_frame : String) (target_time : Nat) (source_frame : String)
    (source_time : Nat) (fixed_frame : String) : LookupOutcome G :=
  match lookupTransform st fixed_frame source_frame source_time with
  | .ok temp1 =>
    match lookupTransform st target_frame fixed_frame target_time with
    | .ok temp2 =>
      .ok ⟨temp2.trans * temp1.trans, temp2.stamp, target_frame, source_frame⟩
    | e => e
  | e => e

/-- Number of samples pushed by one walk side. -/
def walkLen {G : Type} : WalkRes G → Nat
  | .done acc _ => acc.length
  | .errLoop acc => acc.length
  | _ => 0

/-- Length of the inverse list carried by a walk result. -/
def llInvLen {G : Type} : LLRes G → Nat
  | .ok inv _ => inv.length
  | .errLookup _ inv _ => inv.length
  | _ => 0

/-- Length of the forward list carried by a walk result. -/
def llFwdLen {G : Type} : LLRes G → Nat
  | .ok _ fwd => fwd.length
  | .errLookup _ _ fwd => fwd.length
  | _ => 0

/-- Whether a walk result is the loop-detection `LOOKUP_ERROR`. -/
def llIsLoopError {G : Type} : LLRes G → Bool
  | .errLookup .loop _ _ => true
  | _ => false

/-- The header stamp of a successful lookup outcome. -/
def ltStamp {G : Type} : LookupOutcome G → Option Nat
  | .ok out => some out.stamp
  | _ => none

/-! Concrete instances used by witnesses and counterexamples.  The opaque
transform group is instantiated with `Multiplicative ℤ`. -/

/-- Concrete transform group for witness states. -/
abbrev GW : Type := Multiplicative ℤ

/-- A concrete opaque transform value. -/
def gw (n : ℤ) : GW := Multiplicative.ofAdd n

/-- A fresh buffer with `cache_time = 10` and zero extrapolation
tolerance (the constructor's `DEFAULT_MAX_EXTRAPOLATION_DISTANCE`). -/
def st0 : BufferCoreState GW := emptyState GW 10 0

/-- A wire sample with no NaN scalars. -/
def mkMsg (frame child : String) (stamp : Nat) (v : ℤ) :
    TransformStamped GW :=
  ⟨stamp, frame, child,
   ⟨⟨false, false, false⟩, ⟨false, false, false, false⟩, gw v⟩⟩

/-- Feed one sample through `setTransform`, keeping the new state. -/
def stepState (st : BufferCoreState GW) (msg : TransformStamped GW) :
    BufferCoreState GW :=
  ((setTransform st msg "test_authority").map Prod.snd).getD st

/-- A self-transform sample (`child == header`), rejected by validation. -/
def msgSelf : TransformStamped GW := mkMsg "a" "a" 1 0

/-- One edge `p → c` at stamp 1 (frame ids: c = 1, p = 2). -/
def stC2 : BufferCoreState GW := stepState st0 (mkMsg "p" "c" 1 1)

/-- Chain `r → b → a`: edge `b → a` at stamp 10 and `r → b` at stamp 1
(frame ids: a = 1, b = 2, r = 3). -/
def stC5 : BufferCoreState GW :=
  stepState (stepState st0 (mkMsg "b" "a" 10 1)) (mkMsg "r" "b" 1 2)

/-- A two-frame parent cycle `a ↔ b` (frame ids: a = 1, b = 2). -/
def stCyc : BufferCoreState GW :=
  stepState (stepState st0 (mkMsg "a" "b" 5 2)) (mkMsg "b" "a" 5 1)

/-- A sample published with header `"NO_PARENT"` (parent id 0) for child
`a`, plus an unrelated frame `b` (frame ids: a = 1, b = 2, x = 3). -/
def stNP : BufferCoreState GW :=
  stepState (stepState st0 (mkMsg "NO_PARENT" "a" 1 1)) (mkMsg "x" "b" 1 1)

/-- Registry with frames a = 1, b = 2 (one edge `b → a` at stamp 5). -/
def st4 : BufferCoreState GW := stepState st0 (mkMsg "b" "a" 5 1)

/-- Walk lists whose topmost samples carry parent `"NO_PARENT"` (id 0). -/
def inv4 : List (TransformStorage GW) :=
  [⟨1, "NO_PARENT", "a", 0, gw 1, .ONE_VALUE⟩]

/-- Forward-side counterpart of `inv4`. -/
def fwd4 : List (TransformStorage GW) :=
  [⟨1, "NO_PARENT", "b", 0, gw 1, .ONE_VALUE⟩]

/-- Registry with frames a = 1, r = 2, b = 3 (edges `r → a`, `r → b`). -/
def st4w : BufferCoreState GW :=
  stepState (stepState st0 (mkMsg "r" "a" 5 1)) (mkMsg "r" "b" 5 1)

/-- Source-side list of the `st4w` walk: one step `a` with parent `r`. -/
def inv4w : List (TransformStorage GW) :=
  [⟨5, "r", "a", 2, gw 1, .ONE_VALUE⟩]

/-- Target-side list of the `st4w` walk: one step `b` with parent `r`. -/
def fwd4w : List (TransformStorage GW) :=
  [⟨5, "r", "b", 2, gw 1, .ONE_VALUE⟩]

/-- One edge `t → f` at stamp 5 (frame ids: f = 1, t = 2). -/
def stC8 : BufferCoreState GW := stepState st0 (mkMsg "t" "f" 5 1)

/-- One edge `p → c` at stamp 100 (frame ids: c = 1, p = 2);
`cache_time = 10`, so a later sample at stamp 5 is TF_OLD_DATA. -/
def stOld : BufferCoreState GW := stepState st0 (mkMsg "p" "c" 100 1)

/-- The sample rejected as old data on `stOld` (fresh header `q`). -/
def msgOld : TransformStamped GW := mkMsg "q" "c" 5 2

/-! Shared helper lemmas. -/

theorem foldl_inv_mul {G : Type} [Group G] :
    ∀ (l : List G) (t : G),
      l.foldl (fun acc x => x⁻¹ * acc) t = l.prod⁻¹ * t := by
  intro l
  induction l with
  | nil => intro t; simp
  | cons a l ih =>
    intro t
    simp only [List.foldl_cons, List.prod_cons, mul_inv_rev, ih, mul_assoc]

theorem lookupOrInsert_lookup {G : Type} (st : BufferCoreState G)
    (s : String) (n : Nat) (st' : BufferCoreState G)
    (h : lookupOrInsertFrameNumber st s = (n, st')) :
    lookupFrameNumber st' s = some n := by
  unfold lookupOrInsertFrameNumber at h
  cases hf : lookupFrameNumber st s with
  | some m =>
    rw [hf] at h
    cases h
    exact hf
  | none =>
    rw [hf] at h
    cases h
    unfold lookupFrameNumber at hf ⊢
    simp only [Option.map_eq_none'] at hf
    simp [List.find?_append, hf]

theorem lookupOrInsert_preserves {G : Type} (st : BufferCoreState G)
    (s : String) (n : Nat) (st' : BufferCoreState G)
    (h : lookupOrInsertFrameNumber st s = (n, st'))
    (x : String) (m : Nat) (hx : lookupFrameNumber st x = some m) :
    lookupFrameNumber st' x = some m := by
  unfold lookupOrInsertFrameNumber at h
  cases hf : lookupFrameNumber st s with
  | some k => rw [hf] at h; cases h; exact hx
  | none =>
    rw [hf] at h
    cases h
    unfold lookupFrameNumber at hx ⊢
    cases hfind : (st.frameIDs.find? fun p => p.1 = x) with
    | none => rw [hfind] at hx; cases hx
    | some p =>
      rw [hfind] at hx
      simp [List.find?_append, hfind, hx]

theorem lookupOrInsert_authority {G : Type} (st : BufferCoreState G)
    (s : String) (n : Nat) (st' : BufferCoreState G)
    (h : lookupOrInsertFrameNumber st s = (n, st')) :
    st'.frame_authority = st.frame_authority := by
  unfold lookupOrInsertFrameNumber at h
  cases hf : lookupFrameNumber st s with
  | some m => rw [hf] at h; cases h; rfl
  | none => rw [hf] at h; cases h; rfl

theorem lookupOrInsert_frames_le {G : Type} (st : BufferCoreState G)
    (s : String) (n : Nat) (st' : BufferCoreState G)
    (h : lookupOrInsertFrameNumber st s = (n, st')) :
    st.frames.length ≤ st'.frames.length := by
  unfold lookupOrInsertFrameNumber at h
  cases hf : lookupFrameNumber st s with
  | some m => rw [hf] at h; cases h; exact Nat.le_refl _
  | none => rw [hf] at h; cases h; simp

/-- C1: For every input transform sample and authority string, if the
sample's child frame equals its header frame, or the child frame is empty
or `"/"`, or the header frame is empty or `"/"`, or any of the seven
scalars of translation and rotation is NaN, then `setTransform` returns
`false` and performs no mutation of the BufferCore state (no registry
insertion, no cache insertion, no authority recording): every validation
failure is handled before any mutation. -/
theorem setTransform_validation_failure_no_mutation {G : Type}
    (st : BufferCoreState G) (t : TransformStamped G) (authority : String)
    (h : t.child_frame_id = t.frame_id ∨
         t.child_frame_id = "" ∨ t.child_frame_id = "/" ∨
         t.frame_id = "" ∨ t.frame_id = "/" ∨
         t.transform.translation.x_isnan = true ∨
         t.transform.translation.y_isnan = true ∨
         t.transform.translation.z_isnan = true ∨
         t.transform.rotation.x_isnan = true ∨
         t.transform.rotation.y_isnan = true ∨
         t.transform.rotation.z_isnan = true ∨
         t.transform.rotation.w_isnan = true) :
    setTransform st t authority = some (false, st) := by
  have herr : setTransformError t = true := by
    unfold setTransformError
    rcases h with h|h|h|h|h|h|h|h|h|h|h|h <;> simp [h]
  simp [setTransform, herr]

/-- Witness for C1 at a concrete self-transform. -/
theorem setTransform_validation_failure_no_mutation_witness :
    msgSelf.child_frame_id = msgSelf.frame_id ∧
      setTransform st0 msgSelf "test_authority" = some (false, st0) :=
  ⟨by decide,
   setTransform_validation_failure_no_mutation st0 msgSelf "test_authority"
     (Or.inl (by decide))⟩

/-- C3: For every pair of lists `inverse` and `forward`, the composed
output transform of `computeTransformFromList` (identity, then
right-multiplication by the inverse-list transforms from the back, then
left-multiplication by the inverted forward-list transforms from the
back) equals `(∏ forward)⁻¹ · (∏ inverse)` with the products written
parent-first (i.e. over the reversed lists). -/
theorem computeTransformFromList_eq_prod {G : Type} [Group G]
    (inv fwd : List (TransformStorage G)) :
    computeTransformFromList inv fwd =
      ((fwd.map (fun ts => ts.trans)).reverse.prod)⁻¹ *
        (inv.map (fun ts => ts.trans)).reverse.prod := by
  unfold computeTransformFromList
  have h₁ : inv.reverse.foldl (fun acc ts => acc * ts.trans) 1
      = (inv.map (fun ts => ts.trans)).reverse.prod := by
    rw [show (inv.map (fun ts => ts.trans)).reverse
          = inv.reverse.map (fun ts => ts.trans) from
        (List.map_reverse _ _).symm]
    rw [List.prod_eq_foldl, List.foldl_map]
  have h₂ : ∀ t : G, fwd.reverse.foldl (fun acc ts => ts.trans⁻¹ * acc) t
      = ((fwd.map (fun ts => ts.trans)).reverse.prod)⁻¹ * t := by
    intro t
    rw [show (fwd.map (fun ts => ts.trans)).reverse
          = fwd.reverse.map (fun ts => ts.trans) from
        (List.map_reverse _ _).symm]
    rw [← foldl_inv_mul (fwd.reverse.map (fun ts => ts.trans)) t,
        List.foldl_map]
  rw [h₁] at *
  exact h₂ _

/-- C9: the claim that the walk stops at parent id 0 without sampling
frame 0's cache fails on the code: the `frame == 0` break is checked
before `frame` is advanced to the sample's parent, so after `setTransform`
accepts a sample whose header frame is `"NO_PARENT"` (parent id 0), the
next walk iteration calls `getFrame(0)`, which returns `NULL`, and
`ROS_ASSERT(pointer)` fails.  Concretely: `setTransform` accepts the
`NO_PARENT → a` sample and the walk from `a` crashes. -/
theorem lookupLists_NO_PARENT_assert_failure :
    (setTransform st0 (mkMsg "NO_PARENT" "a" 1 1) "test_authority").map
        Prod.fst = some true ∧
      lookupLists stNP 2 1 1 = LLRes.panic := by
  decide

/-- C2: the per-step extrapolation check fails a `ONE_VALUE` sample iff
`|t − sample.t| > max_extrapolation`, an `EXTRAPOLATE_BACK` sample iff
`sample.t − t > max_extrapolation`, an `EXTRAPOLATE_FORWARD` sample iff
`t − sample.t > max_extrapolation`, and never fails `EXACT` or
`INTERPOLATED` samples; `test_extrapolation` fails iff some sample in
either list fails; and a failing sample makes `lookupTransform` raise
`ExtrapolationError`, reclassified as `ConnectivityError` when the
originally requested time was the "latest" sentinel. -/
theorem test_extrapolation_spec {G : Type} [Group G]
    (st : BufferCoreState G) (target_frame source_frame : String)
    (time temp_time : Nat) (tn sn : Nat)
    (inv fwd : List (TransformStorage G)) :
    (∀ tr : TransformStorage G, tr.mode = ExtrapolationMode.ONE_VALUE →
        (test_extrapolation_sample st.max_extrapolation_distance temp_time tr = true ↔
          (st.max_extrapolation_distance : Int) <
            |(temp_time : Int) - (tr.stamp : Int)|)) ∧
    (∀ tr : TransformStorage G, tr.mode = ExtrapolationMode.EXTRAPOLATE_BACK →
        (test_extrapolation_sample st.max_extrapolation_distance temp_time tr = true ↔
          (st.max_extrapolation_distance : Int) < (tr.stamp : Int) - (temp_time : Int))) ∧
    (∀ tr : TransformStorage G, tr.mode = ExtrapolationMode.EXTRAPOLATE_FORWARD →
        (test_extrapolation_sample st.max_extrapolation_distance temp_time tr = true ↔
          (st.max_extrapolation_distance : Int) < (temp_time : Int) - (tr.stamp : Int))) ∧
    (∀ tr : TransformStorage G,
        tr.mode = ExtrapolationMode.EXACT ∨ tr.mode = ExtrapolationMode.INTERPOLATED →
        test_extrapolation_sample st.max_extrapolation_distance temp_time tr = false) ∧
    (test_extrapolation st.max_extrapolation_distance temp_time inv fwd = true ↔
      ∃ tr ∈ inv ++ fwd,
        test_extrapolation_sample st.max_extrapolation_distance temp_time tr = true) ∧
    (source_frame ≠ target_frame →
      latestTimeResolution st target_frame source_frame time =
        GLCTResult.result TF2Error.NO_ERROR temp_time →
      lookupFrameNumber st target_frame = some tn →
      lookupFrameNumber st source_frame = some sn →
      lookupLists st tn temp_time sn = LLRes.ok inv fwd →
      test_extrapolation st.max_extrapolation_distance temp_time inv fwd = true →
      lookupTransform st target_frame source_frame time =
        (if time = 0 then LookupOutcome.exConnectivity
         else LookupOutcome.exExtrapolation)) := by
  refine ⟨?_, ?_, ?_, ?_, ?_, ?_⟩
  · intro tr h
    simp only [test_extrapolation_sample, test_extrapolation_one_value,
      test_extrapolation_past, test_extrapolation_future, h]
    simp only [beq_self_eq_true, Bool.true_and, Bool.or_eq_true,
      decide_eq_true_eq, show (ExtrapolationMode.ONE_VALUE ==
        ExtrapolationMode.EXTRAPOLATE_BACK) = false from rfl,
      show (ExtrapolationMode.ONE_VALUE ==
        ExtrapolationMode.EXTRAPOLATE_FORWARD) = false from rfl,
      Bool.false_and, Bool.or_false]
    rw [lt_abs]
    constructor
    · rintro (h1 | h1)
      · right; omega
      · left; omega
    · rintro (h1 | h1)
      · right; omega
      · left; omega
  · intro tr h
    simp only [test_extrapolation_sample, test_extrapolation_one_value,
      test_extrapolation_past, test_extrapolation_future, h]
    simp
  · intro tr h
    simp only [test_extrapolation_sample, test_extrapolation_one_value,
      test_extrapolation_past, test_extrapolation_future, h]
    simp
  · intro tr h
    rcases h with h | h <;>
      simp [test_extrapolation_sample, test_extrapolation_one_value,
        test_extrapolation_past, test_extrapolation_future, h]
  · simp only [test_extrapolation, Bool.or_eq_true, List.any_eq_true,
      List.mem_append]
    constructor
    · rintro (⟨tr, htr, hf⟩ | ⟨tr, htr, hf⟩)
      · exact ⟨tr, Or.inl htr, hf⟩
      · exact ⟨tr, Or.inr htr, hf⟩
    · rintro ⟨tr, htr | htr, hf⟩
      · exact Or.inl ⟨tr, htr, hf⟩
      · exact Or.inr ⟨tr, htr, hf⟩
  · intro hne h1 h2 h3 h4 h5
    unfold lookupTransform
    rw [show (source_frame == target_frame) = false from
      beq_eq_false_iff_ne.mpr hne]
    simp only [Bool.false_eq_true, if_false, h1, h2, h3, h4, h5, if_true]

/-- Witness for C2: a single `ONE_VALUE` sample at stamp 1 queried at
time 2 with zero tolerance raises `ExtrapolationError`. -/
theorem test_extrapolation_spec_witness :
    lookupTransform stC2 "p" "c" 2 =
      (if (2 : Nat) = 0 then LookupOutcome.exConnectivity
       else LookupOutcome.exExtrapolation) :=
  (test_extrapolation_spec stC2 "p" "c" 2 2 2 1
      [⟨1, "p", "c", 2, gw 1, .ONE_VALUE⟩] []).2.2.2.2.2
    (by decide) (by decide) (by decide) (by decide) (by decide) (by decide)



theorem foldl_min_eq (l : List Nat) (init : Nat) :
    l.foldl (fun t s => if t > s then s else t) init = l.foldl min init := by
  induction l generalizing init with
  | nil => rfl
  | cons a l ih =>
    simp only [List.foldl_cons, ih]
    congr 1
    split <;> omega

theorem foldl_min_le (l : List Nat) (init : Nat) : l.foldl min init ≤ init := by
  induction l generalizing init with
  | nil => exact Nat.le_refl _
  | cons a l ih =>
    exact Nat.le_trans (ih (min init a)) (Nat.min_le_left _ _)

theorem foldl_min_le_mem (l : List Nat) (init s : Nat) (hs : s ∈ l) :
    l.foldl min init ≤ s := by
  induction l generalizing init with
  | nil => cases hs
  | cons a l ih =>
    rcases List.mem_cons.mp hs with h | h
    · subst h
      exact Nat.le_trans (foldl_min_le l (min init s)) (Nat.min_le_right _ _)
    · exact ih (min init a) h

theorem foldl_min_mem_or (l : List Nat) (init : Nat) :
    l.foldl min init = init ∨ l.foldl min init ∈ l := by
  induction l generalizing init with
  | nil => exact Or.inl rfl
  | cons a l ih =>
    rcases ih (min init a) with h | h
    · rcases min_choice init a with hm | hm
      · exact Or.inl (by rw [List.foldl_cons, h]; exact hm)
      · refine Or.inr ?_
        rw [List.foldl_cons, h, hm]
        exact List.mem_cons_self _ _
    · exact Or.inr (List.mem_cons_of_mem _ h)

/-- C5: `getLatestCommonTime` runs the walk with the "latest" sentinel;
a failed name resolution or a walk failure with `LOOKUP_ERROR` or
`CONNECTIVITY_ERROR` returns that error code with the output time set to
zero; when both lists are empty it returns the unset time with no error;
otherwise it returns the minimum header timestamp over all samples of
both lists. -/
theorem getLatestCommonTime_spec {G : Type} (st : BufferCoreState G)
    (source dest : String) :
    ((lookupFrameNumber st dest = none ∨ lookupFrameNumber st source = none) →
        getLatestCommonTime st source dest =
          GLCTResult.result TF2Error.LOOKUP_ERROR 0) ∧
    (∀ dn sn, lookupFrameNumber st dest = some dn →
        lookupFrameNumber st source = some sn →
      (∀ r inv fwd, lookupLists st dn 0 sn = LLRes.errLookup r inv fwd →
          getLatestCommonTime st source dest =
            GLCTResult.result TF2Error.LOOKUP_ERROR 0) ∧
      (lookupLists st dn 0 sn = LLRes.errConn →
          getLatestCommonTime st source dest =
            GLCTResult.result TF2Error.CONNECTIVITY_ERROR 0) ∧
      (lookupLists st dn 0 sn = LLRes.ok [] [] →
          getLatestCommonTime st source dest =
            GLCTResult.result TF2Error.NO_ERROR 0) ∧
      (∀ inv fwd, lookupLists st dn 0 sn = LLRes.ok inv fwd →
          inv ++ fwd ≠ [] →
          (∀ s ∈ (inv ++ fwd).map (fun e => e.stamp), s ≤ TIME_MAX) →
          ∃ m, getLatestCommonTime st source dest =
              GLCTResult.result TF2Error.NO_ERROR m ∧
            m ∈ (inv ++ fwd).map (fun e => e.stamp) ∧
            ∀ s ∈ (inv ++ fwd).map (fun e => e.stamp), m ≤ s)) := by
  constructor
  · intro h
    rcases h with h | h
    · simp [getLatestCommonTime, h]
    · cases hd : lookupFrameNumber st dest with
      | none => simp [getLatestCommonTime, hd]
      | some dn => simp [getLatestCommonTime, hd, h]
  · intro dn sn hdn hsn
    refine ⟨?_, ?_, ?_, ?_⟩
    · intro r inv fwd hw
      simp [getLatestCommonTime, hdn, hsn, hw]
    · intro hw
      simp [getLatestCommonTime, hdn, hsn, hw]
    · intro hw
      simp [getLatestCommonTime, hdn, hsn, hw]
    · intro inv fwd hw hne hle
      have hif : (inv.isEmpty && fwd.isEmpty) = false := by
        cases inv <;> cases fwd <;> simp_all
      have hstamps : (inv ++ fwd).map (fun e => e.stamp)
          = inv.map (fun e => e.stamp) ++ fwd.map (fun e => e.stamp) :=
        List.map_append _ _ _
      set stamps := inv.map (fun e => e.stamp) ++ fwd.map (fun e => e.stamp)
        with hstampsdef
      have hres : getLatestCommonTime st source dest =
          GLCTResult.result TF2Error.NO_ERROR (stamps.foldl min TIME_MAX) := by
        simp only [getLatestCommonTime, hdn, hsn, hw, hif, Bool.false_eq_true,
          if_false]
        rw [foldl_min_eq]
      refine ⟨stamps.foldl min TIME_MAX, hres, ?_, ?_⟩
      · rcases foldl_min_mem_or stamps TIME_MAX with h | h
        · have hnonempty : stamps ≠ [] := by
            cases inv <;> cases fwd <;> simp_all
          obtain ⟨s₀, hs₀⟩ := List.exists_mem_of_ne_nil stamps hnonempty
          have h1 : stamps.foldl min TIME_MAX ≤ s₀ :=
            foldl_min_le_mem stamps TIME_MAX s₀ hs₀
          have h2 : s₀ ≤ TIME_MAX := by
            have := hle s₀ (by rw [hstamps]; exact hs₀)
            exact this
          have : stamps.foldl min TIME_MAX = s₀ := by omega
          rw [hstamps, this]
          exact hs₀
        · rw [hstamps]; exact h
      · intro s hs
        exact foldl_min_le_mem stamps TIME_MAX s (by rw [← hstamps]; exact hs)


/-- Witness for C5 on the chain `r → b → a` with stamps 10 and 1: the
latest common time is 1. -/
theorem getLatestCommonTime_spec_witness :
    ∃ m, getLatestCommonTime stC5 "r" "a" =
        GLCTResult.result TF2Error.NO_ERROR m ∧
      m ∈ (([] : List (TransformStorage GW)) ++
            ([⟨10, "b", "a", 2, gw 1, .EXACT⟩,
              ⟨1, "r", "b", 3, gw 2, .EXACT⟩] :
              List (TransformStorage GW))).map (fun e => e.stamp) ∧
      ∀ s ∈ (([] : List (TransformStorage GW)) ++
            ([⟨10, "b", "a", 2, gw 1, .EXACT⟩,
              ⟨1, "r", "b", 3, gw 2, .EXACT⟩] :
              List (TransformStorage GW))).map (fun e => e.stamp), m ≤ s :=
  ((getLatestCommonTime_spec stC5 "r" "a").2 1 3 (by decide) (by decide)).2.2.2
    [] [⟨10, "b", "a", 2, gw 1, .EXACT⟩, ⟨1, "r", "b", 3, gw 2, .EXACT⟩]
    (by decide) (by decide) (by decide)

theorem walkLoop_ne_fuelOut {G : Type} (st : BufferCoreState G) (time : Nat) :
    ∀ (fuel counter frame : Nat) (acc : List (TransformStorage G)),
      counter ≤ MAX_GRAPH_DEPTH + 1 → MAX_GRAPH_DEPTH + 2 ≤ fuel + counter →
      walkLoop st time frame fuel counter acc ≠ WalkRes.fuelOut := by
  intro fuel
  induction fuel with
  | zero => intro counter frame acc h1 h2; omega
  | succ fuel ih =>
    intro counter frame acc h1 h2
    unfold walkLoop
    split
    · simp
    · split
      · simp
      · split
        · simp
        · split
          · simp
          · next hc => exact ih (counter + 1) _ _ (by omega) (by omega)

theorem walkLoop_len {G : Type} (st : BufferCoreState G) (time : Nat) :
    ∀ (fuel frame counter : Nat) (acc : List (TransformStorage G)),
      walkLen (walkLoop st time frame fuel counter acc) ≤ acc.length + fuel := by
  intro fuel
  induction fuel with
  | zero => intro frame counter acc; simp [walkLoop, walkLen]
  | succ fuel ih =>
    intro frame counter acc
    unfold walkLoop
    split
    · simp [walkLen]
    · split
      · simp [walkLen]
      · split
        · simp [walkLen]
        · split
          · simp [walkLen]
          · calc walkLen (walkLoop st time _ fuel (counter + 1) (_ :: acc))
                ≤ (_ :: acc).length + fuel := ih _ _ _
              _ ≤ acc.length + (fuel + 1) := by
                  simp only [List.length_cons]; omega

theorem popLoopRev_length {G : Type} (st : BufferCoreState G) :
    ∀ (inv fwd : List (TransformStorage G)) p,
      popLoopRev st inv fwd = Except.ok p →
      p.1.length ≤ inv.length ∧ p.2.length ≤ fwd.length := by
  intro inv
  induction inv with
  | nil =>
    intro fwd p h
    unfold popLoopRev at h
    cases h
    exact ⟨Nat.le_refl _, Nat.le_refl _⟩
  | cons a inv ih =>
    intro fwd p h
    cases fwd with
    | nil =>
      unfold popLoopRev at h
      cases h
      exact ⟨Nat.le_refl _, Nat.le_refl _⟩
    | cons b fwd =>
      unfold popLoopRev at h
      split at h
      · split at h
        · split at h
          · cases h
            exact ⟨Nat.le_succ _, Nat.le_succ _⟩
          · have hr := ih fwd p h
            exact ⟨Nat.le_trans hr.1 (Nat.le_succ _),
                   Nat.le_trans hr.2 (Nat.le_succ _)⟩
        · cases h
          exact ⟨Nat.le_refl _, Nat.le_refl _⟩
      · exact absurd h (by simp)

theorem popLoop_length {G : Type} (st : BufferCoreState G)
    (inv fwd : List (TransformStorage G)) (p)
    (h : popLoop st inv fwd = Except.ok p) :
    p.1.length ≤ inv.length ∧ p.2.length ≤ fwd.length := by
  unfold popLoop at h
  cases hrev : popLoopRev st inv.reverse fwd.reverse with
  | error e => rw [hrev] at h; cases h
  | ok q =>
    rw [hrev] at h
    cases h
    have hr := popLoopRev_length st inv.reverse fwd.reverse q hrev
    constructor
    · simpa using hr.1
    · simpa using hr.2

theorem lookupListsPost_len {G : Type} (st : BufferCoreState G)
    (source target : Nat) (inv fwd : List (TransformStorage G))
    (lastInv lastFwd : Nat) :
    llInvLen (lookupListsPost st source target inv fwd lastInv lastFwd) ≤
        inv.length ∧
      llFwdLen (lookupListsPost st source target inv fwd lastInv lastFwd) ≤
        fwd.length := by
  unfold lookupListsPost
  split
  · split
    · simp [llInvLen, llFwdLen]
    · split
      · simp [llInvLen, llFwdLen]
      · simp [llInvLen, llFwdLen]
  · split
    · split
      · simp [llInvLen, llFwdLen]
      · split
        · simp [llInvLen, llFwdLen]
        · split
          · simp [llInvLen, llFwdLen]
          · simp [llInvLen, llFwdLen]
    · split
      · simp [llInvLen, llFwdLen]
      · split
        · split
          · simp [llInvLen, llFwdLen]
          · split
            · simp [llInvLen, llFwdLen]
            · split
              · simp [llInvLen, llFwdLen]
              · split
                · simp [llInvLen, llFwdLen]
                · split
                  · simp [llInvLen, llFwdLen]
                  · next p hp =>
                      have hr := popLoop_length st inv fwd p hp
                      simpa [llInvLen, llFwdLen] using hr
        · simp [llInvLen, llFwdLen]


theorem lookupListsPost_ne_fuelOut {G : Type} (st : BufferCoreState G)
    (source target : Nat) (inv fwd : List (TransformStorage G))
    (lastInv lastFwd : Nat) :
    lookupListsPost st source target inv fwd lastInv lastFwd ≠
      LLRes.fuelOut := by
  unfold lookupListsPost
  repeat' split
  all_goals simp

/-- C6 (amended): for every state, time and frame pair the two-sided
walk terminates — the fuel `MAX_GRAPH_DEPTH + 2` provided to each side is
never exhausted — and each side performs at most `MAX_GRAPH_DEPTH + 2`
hops; a side that would exceed that bound returns `LOOKUP_ERROR` with the
"contains a loop" diagnostic rather than not terminating. -/
theorem lookupLists_terminates_bounded {G : Type} (st : BufferCoreState G)
    (target time source : Nat) :
    lookupLists st target time source ≠ LLRes.fuelOut ∧
      llInvLen (lookupLists st target time source) ≤ MAX_GRAPH_DEPTH + 2 ∧
      llFwdLen (lookupLists st target time source) ≤ MAX_GRAPH_DEPTH + 2 := by
  unfold lookupLists
  split
  · simp [llInvLen, llFwdLen]
  · split
    · simp [llInvLen, llFwdLen]
    · split
      · next heq =>
          exact absurd heq
            (walkLoop_ne_fuelOut st time (MAX_GRAPH_DEPTH + 2) 0 source []
              (by omega) (by omega))
      · simp [llInvLen, llFwdLen]
      · next inv heq =>
          have hlen := walkLoop_len st time (MAX_GRAPH_DEPTH + 2) source 0 []
          rw [heq] at hlen
          simp only [walkLen, List.length_nil, Nat.zero_add] at hlen
          refine ⟨by simp, ?_, ?_⟩
          · simpa [llInvLen] using hlen
          · simp [llFwdLen]
      · next inv lastInv heq =>
          have hleninv := walkLoop_len st time (MAX_GRAPH_DEPTH + 2) source 0 []
          rw [heq] at hleninv
          simp only [walkLen, List.length_nil, Nat.zero_add] at hleninv
          split
          · refine ⟨by simp, ?_, ?_⟩
            · simpa [llInvLen] using hleninv
            · simp [llFwdLen]
          · split
            · next heq2 =>
                exact absurd heq2
                  (walkLoop_ne_fuelOut st time (MAX_GRAPH_DEPTH + 2) 0 target []
                    (by omega) (by omega))
            · simp [llInvLen, llFwdLen]
            · next fwd heq2 =>
                have hlenfwd := walkLoop_len st time (MAX_GRAPH_DEPTH + 2) target 0 []
                rw [heq2] at hlenfwd
                simp only [walkLen, List.length_nil, Nat.zero_add] at hlenfwd
                refine ⟨by simp, ?_, ?_⟩
                · simpa [llInvLen] using hleninv
                · simpa [llFwdLen] using hlenfwd
            · next fwd lastFwd heq2 =>
                have hlenfwd := walkLoop_len st time (MAX_GRAPH_DEPTH + 2) target 0 []
                rw [heq2] at hlenfwd
                simp only [walkLen, List.length_nil, Nat.zero_add] at hlenfwd
                have hpost := lookupListsPost_len st source target inv fwd lastInv lastFwd
                refine ⟨?_, ?_, ?_⟩
                · exact lookupListsPost_ne_fuelOut st source target inv fwd lastInv lastFwd
                · exact Nat.le_trans hpost.1 hleninv
                · exact Nat.le_trans hpost.2 hlenfwd


set_option maxRecDepth 100000 in
/-- Counterexample to C6 as stated: on the two-frame parent cycle
`a ↔ b` the inverse side performs `MAX_GRAPH_DEPTH + 2 = 1002` hops
(pushes) before the `counter++ > MAX_GRAPH_DEPTH` check fires, strictly
more than the claimed `MAX_GRAPH_DEPTH`; the walk does return the
loop-diagnostic `LOOKUP_ERROR`. -/
theorem lookupLists_hops_exceed_MAX_GRAPH_DEPTH :
    llIsLoopError (lookupLists stCyc 2 5 1) = true ∧
      llInvLen (lookupLists stCyc 2 5 1) = MAX_GRAPH_DEPTH + 2 ∧
      MAX_GRAPH_DEPTH < MAX_GRAPH_DEPTH + 2 := by
  refine ⟨by decide, by decide, by omega⟩


theorem lookupTransform_stamp {G : Type} [Group G] (st : BufferCoreState G)
    (target_frame source_frame : String) (time : Nat)
    (out : StampedTransform G)
    (h : lookupTransform st target_frame source_frame time =
      LookupOutcome.ok out)
    (ht : time ≠ 0) : out.stamp = time := by
  unfold lookupTransform at h
  split at h
  · cases h; rfl
  · have hres : latestTimeResolution st target_frame source_frame time =
        GLCTResult.result TF2Error.NO_ERROR time := by
      simp [latestTimeResolution, ht]
    simp only [hres] at h
    repeat' split at h
    all_goals cases h
    all_goals rfl

/-- C8 (amended): the five-argument lookup returns the composition of
the `target ← fixed` lookup with the `fixed ← source` lookup, stamped
with the `target ← fixed` result's stamp and labelled
`header.frame_id = target`, `child_frame_id = source`; that stamp equals
`target_time` whenever `target_time` is not the "latest" sentinel (at the
sentinel it is the resolved latest common time instead). -/
theorem lookupTransformFull_composes {G : Type} [Group G]
    (st : BufferCoreState G)
    (target_frame source_frame fixed_frame : String)
    (target_time source_time : Nat) (temp1 temp2 : StampedTransform G)
    (h1 : lookupTransform st fixed_frame source_frame source_time =
      LookupOutcome.ok temp1)
    (h2 : lookupTransform st target_frame fixed_frame target_time =
      LookupOutcome.ok temp2) :
    lookupTransformFull st target_frame target_time source_frame
        source_time fixed_frame =
      LookupOutcome.ok
        ⟨temp2.trans * temp1.trans, temp2.stamp, target_frame,
         source_frame⟩ ∧
      (target_time ≠ 0 → temp2.stamp = target_time) := by
  constructor
  · unfold lookupTransformFull
    rw [h1, h2]
  · intro ht
    exact lookupTransform_stamp st target_frame fixed_frame target_time
      temp2 h2 ht

/-- Witness for C8 on the one-edge state `t → f` at stamp 5. -/
theorem lookupTransformFull_composes_witness :
    lookupTransformFull stC8 "t" 5 "f" 1 "f" =
        LookupOutcome.ok ⟨gw 1 * 1, 5, "t", "f"⟩ ∧
      ((5 : Nat) ≠ 0 → (5 : Nat) = 5) :=
  lookupTransformFull_composes stC8 "t" "f" "f" 5 1 ⟨1, 1, "f", "f"⟩
    ⟨gw 1, 5, "t", "f"⟩ (by decide) (by decide)

/-- Counterexample to C8 as stated: with `target_time` the "latest"
sentinel (0), the returned header stamp is the resolved common time 5,
not `target_time`. -/
theorem lookupTransformFull_latest_stamp_not_target_time :
    ltStamp (lookupTransformFull stC8 "t" 0 "f" 1 "f") = some 5 ∧
      (5 : Nat) ≠ 0 := by decide


theorem mem_of_getLast?_some {α : Type} {l : List α} {a : α}
    (h : l.getLast? = some a) : a ∈ l := by
  cases l with
  | nil => cases h
  | cons b t =>
    have hne : (b :: t) ≠ [] := by simp
    rw [List.getLast?_eq_getLast_of_ne_nil hne] at h
    injection h with h
    rw [← h]
    exact List.getLast_mem hne

theorem popLoopRev_ok {G : Type} (st : BufferCoreState G) :
    ∀ (inv fwd : List (TransformStorage G)),
      (∀ ts ∈ inv, (lookupFrameNumber st ts.child_frame_id).isSome = true) →
      (∀ ts ∈ fwd, (lookupFrameNumber st ts.child_frame_id).isSome = true) →
      ∃ p, popLoopRev st inv fwd = Except.ok p := by
  intro inv
  induction inv with
  | nil =>
    intro fwd _ _
    exact ⟨([], fwd), rfl⟩
  | cons a inv ih =>
    intro fwd hi hf
    cases fwd with
    | nil => exact ⟨(a :: inv, []), rfl⟩
    | cons b fwd =>
      obtain ⟨ca, hca⟩ := Option.isSome_iff_exists.mp
        (hi a (List.mem_cons_self _ _))
      obtain ⟨cb, hcb⟩ := Option.isSome_iff_exists.mp
        (hf b (List.mem_cons_self _ _))
      unfold popLoopRev
      rw [hca, hcb]
      simp only
      by_cases heq : ca = cb
      · rw [if_pos heq]
        by_cases hemp : inv.isEmpty || fwd.isEmpty
        · rw [if_pos hemp]
          exact ⟨(inv, fwd), rfl⟩
        · rw [if_neg hemp]
          exact ih fwd (fun ts hts => hi ts (List.mem_cons_of_mem _ hts))
            (fun ts hts => hf ts (List.mem_cons_of_mem _ hts))
      · rw [if_neg heq]
        exact ⟨(a :: inv, b :: fwd), rfl⟩

theorem popLoop_ok {G : Type} (st : BufferCoreState G)
    (inv fwd : List (TransformStorage G))
    (hi : ∀ ts ∈ inv, (lookupFrameNumber st ts.child_frame_id).isSome = true)
    (hf : ∀ ts ∈ fwd, (lookupFrameNumber st ts.child_frame_id).isSome = true) :
    ∃ p, popLoop st inv fwd = Except.ok p := by
  obtain ⟨q, hq⟩ := popLoopRev_ok st inv.reverse fwd.reverse
    (fun ts hts => hi ts (List.mem_reverse.mp hts))
    (fun ts hts => hf ts (List.mem_reverse.mp hts))
  exact ⟨(q.1.reverse, q.2.reverse), by unfold popLoop; rw [hq]; rfl⟩

theorem popLoop_nil_left {G : Type} (st : BufferCoreState G)
    (fwd : List (TransformStorage G)) :
    popLoop st [] fwd = Except.ok ([], fwd) := by
  unfold popLoop
  have h : popLoopRev st ([] : List (TransformStorage G)) fwd.reverse =
      Except.ok ([], fwd.reverse) := rfl
  rw [List.reverse_nil, h]
  simp [Except.map, List.reverse_reverse]

theorem popLoop_nil_right {G : Type} (st : BufferCoreState G)
    (inv : List (TransformStorage G)) :
    popLoop st inv [] = Except.ok (inv, []) := by
  unfold popLoop
  have h : popLoopRev st inv.reverse ([] : List (TransformStorage G)).reverse =
      Except.ok (inv.reverse, []) := by
    rw [List.reverse_nil]
    cases hrev : inv.reverse with
    | nil => rfl
    | cons a t => rfl
  rw [h]
  simp [Except.map, List.reverse_reverse]


/-- C4 (amended): given the walk invariants (the top inverse sample's
header resolves to the inverse side's terminating frame, and every
sample's child frame resolves), the post-walk case analysis returns
CONNECTIVITY_ERROR exactly when both lists are empty, or exactly one list
is empty and the terminating frame on the non-empty side differs from the
opposite endpoint, or the sides terminated at different frames, or — with
both sides nonempty and agreeing — the CHILD frame recorded at the top of
the inverse list resolves to id 0, or it does not and the top of the
forward list's child does; otherwise it pops equal-child steps from the
back of both lists while they share a child frame id and succeeds.  (The
code checks the child frame of the topmost samples, not the topmost
parent as the claim states.) -/
theorem lookupListsPost_connectivity {G : Type} (st : BufferCoreState G)
    (source target : Nat) (inv fwd : List (TransformStorage G))
    (lastInv lastFwd : Nat)
    (hlast : inv ≠ [] →
      inv.getLast?.bind (fun a => lookupFrameNumber st a.frame_id) =
        some lastInv)
    (hresolve : ∀ ts ∈ inv ++ fwd,
      (lookupFrameNumber st ts.child_frame_id).isSome = true) :
    (lookupListsPost st source target inv fwd lastInv lastFwd =
        LLRes.errConn ↔
      ((inv = [] ∧ fwd = []) ∨
        (inv = [] ∧ fwd ≠ [] ∧ lastFwd ≠ source) ∨
        (fwd = [] ∧ inv ≠ [] ∧ lastInv ≠ target) ∨
        (inv ≠ [] ∧ fwd ≠ [] ∧ lastFwd ≠ lastInv) ∨
        (inv ≠ [] ∧ fwd ≠ [] ∧ lastFwd = lastInv ∧
          (inv.getLast?.bind
              (fun a => lookupFrameNumber st a.child_frame_id) = some 0 ∨
            (inv.getLast?.bind
                (fun a => lookupFrameNumber st a.child_frame_id) ≠ some 0 ∧
              fwd.getLast?.bind
                (fun b => lookupFrameNumber st b.child_frame_id) =
                  some 0))))) ∧
    (lookupListsPost st source target inv fwd lastInv lastFwd ≠
        LLRes.errConn →
      ∃ p, popLoop st inv fwd = Except.ok p ∧
        lookupListsPost st source target inv fwd lastInv lastFwd =
          LLRes.ok p.1 p.2) := by
  by_cases hi : inv = []
  · subst hi
    by_cases hf : fwd = []
    · subst hf
      have hpost : lookupListsPost st source target
          ([] : List (TransformStorage G)) [] lastInv lastFwd =
            LLRes.errConn := rfl
      exact ⟨iff_of_true hpost (Or.inl ⟨rfl, rfl⟩),
             fun h => absurd hpost h⟩
    · have hfe : fwd.isEmpty = false := by simp [List.isEmpty_iff, hf]
      by_cases hlf : lastFwd = source
      · have hpost : lookupListsPost st source target
            ([] : List (TransformStorage G)) fwd lastInv lastFwd =
              LLRes.ok [] fwd := by
          simp [lookupListsPost, hfe, hlf]
        refine ⟨iff_of_false (by rw [hpost]; simp) ?_, ?_⟩
        · rintro (⟨_, h⟩ | ⟨_, _, h⟩ | ⟨h, _, _⟩ | ⟨h, _, _⟩ | ⟨h, _, _, _⟩)
          · exact hf h
          · exact h hlf
          · exact hf h
          · exact h rfl
          · exact h rfl
        · intro _
          exact ⟨([], fwd), popLoop_nil_left st fwd, by rw [hpost]⟩
      · have hpost : lookupListsPost st source target
            ([] : List (TransformStorage G)) fwd lastInv lastFwd =
              LLRes.errConn := by
          simp [lookupListsPost, hfe, hlf]
        exact ⟨iff_of_true hpost (Or.inr (Or.inl ⟨rfl, hf, hlf⟩)),
               fun h => absurd hpost h⟩
  · have hie : inv.isEmpty = false := by simp [List.isEmpty_iff, hi]
    obtain ⟨a, ha⟩ : ∃ a, inv.getLast? = some a :=
      Option.isSome_iff_exists.mp (List.getLast?_isSome.mpr hi)
    have hresa : lookupFrameNumber st a.frame_id = some lastInv := by
      have h := hlast hi
      rw [ha] at h
      simpa using h
    by_cases hf : fwd = []
    · subst hf
      by_cases hlt : lastInv = target
      · have hpost : lookupListsPost st source target inv
            ([] : List (TransformStorage G)) lastInv lastFwd =
              LLRes.ok inv [] := by
          simp [lookupListsPost, hie, ha, hresa, hlt]
        refine ⟨iff_of_false (by rw [hpost]; simp) ?_, ?_⟩
        · rintro (⟨h, _⟩ | ⟨h, _, _⟩ | ⟨_, _, h⟩ | ⟨_, h, _⟩ | ⟨_, h, _, _⟩)
          · exact hi h
          · exact hi h
          · exact h hlt
          · exact h rfl
          · exact h rfl
        · intro _
          exact ⟨(inv, []), popLoop_nil_right st inv, by rw [hpost]⟩
      · have hpost : lookupListsPost st source target inv
            ([] : List (TransformStorage G)) lastInv lastFwd =
              LLRes.errConn := by
          simp [lookupListsPost, hie, ha, hresa, hlt]
        exact ⟨iff_of_true hpost (Or.inr (Or.inr (Or.inl ⟨rfl, hi, hlt⟩))),
               fun h => absurd hpost h⟩
    · have hfe : fwd.isEmpty = false := by simp [List.isEmpty_iff, hf]
      obtain ⟨b, hb⟩ : ∃ b, fwd.getLast? = some b :=
        Option.isSome_iff_exists.mp (List.getLast?_isSome.mpr hf)
      obtain ⟨ca, hca⟩ := Option.isSome_iff_exists.mp
        (hresolve a (List.mem_append.mpr (Or.inl (mem_of_getLast?_some ha))))
      obtain ⟨cb, hcb⟩ := Option.isSome_iff_exists.mp
        (hresolve b (List.mem_append.mpr (Or.inr (mem_of_getLast?_some hb))))
      by_cases hll : lastFwd = lastInv
      · by_cases hca0 : ca = 0
        · have hpost : lookupListsPost st source target inv fwd
              lastInv lastFwd = LLRes.errConn := by
            simp [lookupListsPost, hie, hfe, hll, ha, hb, hca, hca0]
          refine ⟨iff_of_true hpost (Or.inr (Or.inr (Or.inr (Or.inr
            ⟨hi, hf, hll, Or.inl ?_⟩)))), fun h => absurd hpost h⟩
          rw [ha]
          simp [hca, hca0]
        · by_cases hcb0 : cb = 0
          · have hpost : lookupListsPost st source target inv fwd
                lastInv lastFwd = LLRes.errConn := by
              simp [lookupListsPost, hie, hfe, hll, ha, hb, hca, hca0,
                hcb, hcb0]
            refine ⟨iff_of_true hpost (Or.inr (Or.inr (Or.inr (Or.inr
              ⟨hi, hf, hll, Or.inr ⟨?_, ?_⟩⟩)))), fun h => absurd hpost h⟩
            · rw [ha]
              simp [hca, hca0]
            · rw [hb]
              simp [hcb, hcb0]
          · obtain ⟨p, hp⟩ := popLoop_ok st inv fwd
              (fun ts hts => hresolve ts (List.mem_append.mpr (Or.inl hts)))
              (fun ts hts => hresolve ts (List.mem_append.mpr (Or.inr hts)))
            have hpost : lookupListsPost st source target inv fwd
                lastInv lastFwd = LLRes.ok p.1 p.2 := by
              simp [lookupListsPost, hie, hfe, hll, ha, hb, hca, hca0,
                hcb, hcb0, hp]
            refine ⟨iff_of_false (by rw [hpost]; simp) ?_, ?_⟩
            · rintro (⟨h, _⟩ | ⟨h, _, _⟩ | ⟨h, _, _⟩ | ⟨_, _, h⟩ |
                ⟨_, _, _, h | ⟨_, h⟩⟩)
              · exact hi h
              · exact hi h
              · exact hf h
              · exact h hll
              · rw [ha] at h
                simp [hca] at h
                exact hca0 h
              · rw [hb] at h
                simp [hcb] at h
                exact hcb0 h
            · intro _
              exact ⟨p, hp, hpost⟩
      · have hpost : lookupListsPost st source target inv fwd
            lastInv lastFwd = LLRes.errConn := by
          simp [lookupListsPost, hie, hfe, hll]
        exact ⟨iff_of_true hpost (Or.inr (Or.inr (Or.inr (Or.inl
          ⟨hi, hf, hll⟩)))), fun h => absurd hpost h⟩


/-- Counterexample to C4 as stated: lists whose topmost parent
(`header.frame_id = "NO_PARENT"`) resolves to id 0 on both sides, for
which the claim demands CONNECTIVITY_ERROR, yet the post-processing
succeeds — the code's id-0 check resolves the samples' child frames, not
their parents. -/
theorem lookupListsPost_top_parent_zero_not_conn :
    inv4.getLast?.bind (fun a => lookupFrameNumber st4 a.frame_id) =
        some 0 ∧
      fwd4.getLast?.bind (fun b => lookupFrameNumber st4 b.frame_id) =
        some 0 ∧
      lookupListsPost st4 1 2 inv4 fwd4 0 0 = LLRes.ok inv4 fwd4 := by
  decide

/-- Witness for C4 on the concrete two-branch tree `a ← r → b`. -/
theorem lookupListsPost_connectivity_witness :
    ∃ p, popLoop st4w inv4w fwd4w = Except.ok p ∧
      lookupListsPost st4w 1 3 inv4w fwd4w 2 2 = LLRes.ok p.1 p.2 :=
  (lookupListsPost_connectivity st4w 1 3 inv4w fwd4w 2 2
    (by decide) (by decide)).2 (by decide)


/-- C10: when validation passes, both the child and the header frame
names are resolved-or-inserted into the registry before the cache insert
is attempted; if the insert is rejected as old data (TF_OLD_DATA) the
call returns `false` and records no authority entry, yet the registry
(and the frames vector) may have grown and that growth persists: the
final state still resolves both names to their (possibly fresh) dense
ids. -/
theorem setTransform_old_data {G : Type} (st : BufferCoreState G)
    (t : TransformStamped G) (authority : String)
    (cid pid : Nat) (st₁ st₂ : BufferCoreState G) (cache : TimeCache G)
    (hval : setTransformError t = false)
    (h1 : lookupOrInsertFrameNumber st t.child_frame_id = (cid, st₁))
    (h2 : lookupOrInsertFrameNumber st₁ t.frame_id = (pid, st₂))
    (h3 : getFrame st₂ cid = some cache)
    (h4 : (cache.insertData st₂.cache_time
        ⟨t.stamp, t.frame_id, t.child_frame_id, pid, t.transform.val,
         ExtrapolationMode.EXACT⟩).1 = false) :
    ∃ st' : BufferCoreState G,
      setTransform st t authority = some (false, st') ∧
      st'.frameIDs = st₂.frameIDs ∧
      st'.frame_authority = st.frame_authority ∧
      lookupFrameNumber st' t.child_frame_id = some cid ∧
      lookupFrameNumber st' t.frame_id = some pid ∧
      st.frames.length ≤ st'.frames.length := by
  have hres : setTransform st t authority = some (false,
      { st₂ with
        frames :=
          (st₂.frames.set cid
            (some
              ((cache.insertData st₂.cache_time
                ⟨t.stamp, t.frame_id, t.child_frame_id, pid,
                 t.transform.val, ExtrapolationMode.EXACT⟩).2))) }) := by
    unfold setTransform
    rw [hval]
    simp only [Bool.false_eq_true, if_false, h1, h2, h3, h4]
  have e1 := lookupOrInsert_authority st t.child_frame_id cid st₁ h1
  have e2 := lookupOrInsert_authority st₁ t.frame_id pid st₂ h2
  have g1 := lookupOrInsert_lookup st t.child_frame_id cid st₁ h1
  have g2 := lookupOrInsert_lookup st₁ t.frame_id pid st₂ h2
  have l1 := lookupOrInsert_frames_le st t.child_frame_id cid st₁ h1
  have l2 := lookupOrInsert_frames_le st₁ t.frame_id pid st₂ h2
  refine ⟨_, hres, rfl, ?_, ?_, ?_, ?_⟩
  · exact e2.trans e1
  · exact lookupOrInsert_preserves st₁ t.frame_id pid st₂ h2 _ _ g1
  · exact g2
  · simp only [List.length_set]
    omega

/-- Witness for C10: after `p → c` at stamp 100 with `cache_time = 10`,
the sample `q → c` at stamp 5 passes validation, permanently allocates
the fresh id 3 for `q`, is rejected as old data, and records no
authority. -/
theorem setTransform_old_data_witness :
    ∃ st' : BufferCoreState GW,
      setTransform stOld msgOld "late_authority" = some (false, st') ∧
      st'.frameIDs = ((lookupOrInsertFrameNumber stOld "q").2).frameIDs ∧
      st'.frame_authority = stOld.frame_authority ∧
      lookupFrameNumber st' "c" = some 1 ∧
      lookupFrameNumber st' "q" = some 3 ∧
      stOld.frames.length ≤ st'.frames.length :=
  setTransform_old_data stOld msgOld "late_authority" 1 3 stOld
    ((lookupOrInsertFrameNumber stOld "q").2)
    ⟨[⟨100, "p", "c", 2, gw 1, .EXACT⟩]⟩
    (by decide) (by decide) (by decide) (by decide) (by decide)


end Tf2
